import Mathlib

/-!
Shallow embedding of the zero-downtime restart / signal-coordination core of
the robotech-rs repository, together with theorems settling the frozen claims.

The embedding covers:
  * `src/web/server/web_server_utils.rs` — listen-spec resolution,
    `start_web_server` control flow, `wait_for_web_server_ready`,
    `terminate_old_web_server`;
  * `src/main_fn/pid_utils.rs` — `read_pid`, the PID-file guard drop
    (`delete_pid_file_if_my_process`);
  * `src/main_fn/signal_utils.rs` — `parse_and_handle_signal_args`,
    `send_signal`, `send_signal_to_check`;
  * `robotech/src/signal/signal_manager.rs` — the newest
    `SignalManager::parse_and_handle_signal_args` variant.

Machine integers are modelled as `Nat` (ports, durations) and `Int` (pid_t);
filesystem and process effects are passed explicitly as state or environment
records, and the observable effect sequence of a run is recorded as a trace of
events.
-/

namespace Robotech

/-- Decimal digit-string value; `none` when empty or containing a non-digit.
Models the digit-consuming core of Rust integer `FromStr`. -/
def digitsVal? (cs : List Char) : Option Nat :=
  if cs = [] then none
  else if cs.all Char.isDigit then
    some (cs.foldl (fun a c => a * 10 + (c.toNat - 48)) 0)
  else none

/-- Model of Rust `str::parse::<u16>`: optional leading plus sign, decimal
digits, and the value must fit in 16 bits. -/
def parseU16? (s : String) : Option Nat :=
  let core : List Char → Option Nat := fun cs =>
    (digitsVal? cs).bind (fun v => if v ≤ 65535 then some v else none)
  match s.toList with
  | '+' :: rest => core rest
  | l => core l

/-- Model of Rust `str::parse::<i32>` (pid_t): optional sign, decimal digits,
value within the i32 range. -/
def parseI32? (s : String) : Option Int :=
  match s.toList with
  | '+' :: rest => (digitsVal? rest).bind
      (fun v => if v ≤ 2147483647 then some (v : Int) else none)
  | '-' :: rest => (digitsVal? rest).bind
      (fun v => if v ≤ 2147483648 then some (-(v : Int)) else none)
  | l => (digitsVal? l).bind
      (fun v => if v ≤ 2147483647 then some (v : Int) else none)

/-- Split a character list around its last colon, if any. -/
def splitAtLastColonAux : List Char → Option (List Char × List Char)
  | [] => none
  | c :: cs =>
    match splitAtLastColonAux cs with
    | some (pre, post) => some (c :: pre, post)
    | none => if c = ':' then some ([], cs) else none

/-- Model of `listen.rsplitn(2, ':')`: `none` when the string holds no colon
(one part), otherwise the substrings before and after the last colon. -/
def splitAtLastColon (s : String) : Option (String × String) :=
  (splitAtLastColonAux s.toList).map (fun p => (String.mk p.1, String.mk p.2))

/-- Bracket stripping applied to the address part of a listen entry:
`bind[1..len-1]` when the string both starts with a left and ends with a
right square bracket (`starts_with` and `ends_with` modelled on the
character list). -/
def stripBrackets (s : String) : String :=
  if (s.toList.head? == some '[') && (s.toList.getLast? == some ']') then
    String.mk (s.toList.drop 1).dropLast
  else s

/-- The error enum of `src/web/server/web_server_error.rs`, with message
payloads kept as strings. -/
inductive WebServerError where
  | ParsePort (s : String)
  | StartWebServerTimeout (url : String)
  | TerminateOldWebServer (msg : String)
  | Socket (msg : String)
  | Runtime (msg : String)
deriving DecidableEq, Repr

/-- Result of the listen-spec resolution phase of `start_web_server`: the
`listen_binds` vector and the `is_random_port` flag. -/
structure Resolved where
  listenBinds : List (String × Nat)
  isRandomPort : Bool
deriving DecidableEq, Repr

/-- Resolution of one `listen` entry (the match on `parts.len()` in
`start_web_server`): a bare port binds on the IPv6 wildcard, an
`address:port` pair parses the part after the last colon as the port and
strips IPv6 brackets from the address. -/
def listenEntry (s : String) : Except WebServerError (String × Nat) :=
  match splitAtLastColon s with
  | none =>
    match parseU16? s with
    | none => .error (.ParsePort s)
    | some p => .ok ("::", p)
  | some (pre, post) =>
    match parseU16? post with
    | none => .error (.ParsePort s)
    | some p => .ok (stripBrackets pre, p)

/-- One iteration of the `for listen in &listens` loop: append the resolved
pair and clear `is_random_port` when the entry port is nonzero. -/
def stepListen (acc : Resolved) (s : String) : Except WebServerError Resolved :=
  match listenEntry s with
  | .error e => .error e
  | .ok bp => .ok ⟨acc.listenBinds ++ [bp], acc.isRandomPort && (bp.2 == 0)⟩

/-- The `for listen in &listens` loop, threading the accumulated
`listen_binds` and `is_random_port` state. -/
def resolveLoop (acc : Resolved) : List String → Except WebServerError Resolved
  | [] => .ok acc
  | s :: rest =>
    match stepListen acc s with
    | .error e => .error e
    | .ok acc2 => resolveLoop acc2 rest

/-- Listen-spec resolution of `start_web_server` (lines 85-133): `bind`
entries all take the top-level port, a wildcard default is synthesized when
both `bind` and `listen` are empty, then `listen` entries are resolved in
order. `is_random_port` starts true, is cleared when the top-level port is
nonzero, and is cleared by every nonzero `listen` port. -/
def resolveListen (binds : List String) (listens : List String) (port : Nat) :
    Except WebServerError Resolved :=
  let init : List (String × Nat) :=
    if binds ≠ [] then binds.map (fun b => (b, port))
    else if listens = [] then [("0.0.0.0", port)]
    else []
  resolveLoop ⟨init, port == 0⟩ listens

/-- The parsed port of one `listen` entry: the whole string when it has no
colon, else the part after the last colon. -/
def listenPortOf? (s : String) : Option Nat :=
  match splitAtLastColon s with
  | none => parseU16? s
  | some pr => parseU16? pr.2

/-- Effective reuse-port flag: the configured flag, forced off when the port
is random (`if is_random_port { reuse_port = false }`). -/
def effectiveReusePort (configured : Bool) (isRandomPort : Bool) : Bool :=
  configured && !isRandomPort

/-- The model of `wait_for_web_server_ready` counts health polls. The loop
body sleeps one `retry_interval` before each request, so poll `k` starts at
time `k * retry_interval`; a poll whose start time has reached
`wait_timeout` can no longer complete before the surrounding `timeout`
deadline fires (the deadline is checked while the in-flight request is still
pending), so success requires a healthy poll with `k * ri < wt`. The fuel
argument bounds the recursion; `wt + 1` fuel suffices whenever `ri > 0`. -/
def waitLoop (healthy : Nat → Bool) (url : String) (wt ri : Nat) :
    Nat → Nat → Except WebServerError Nat
  | 0, _ => .error (.StartWebServerTimeout url)
  | fuel + 1, k =>
    if wt ≤ k * ri then .error (.StartWebServerTimeout url)
    else if healthy k then .ok k
    else waitLoop healthy url wt ri fuel (k + 1)

/-- Model of `wait_for_web_server_ready` (lines 354-373): polls the health
predicate starting at poll index 1 (one sleep precedes the first request)
and yields the index of the first successful poll, or the
`StartWebServerTimeout` error carrying the health URL. -/
def wait_for_web_server_ready (healthy : Nat → Bool) (url : String)
    (wt ri : Nat) : Except WebServerError Nat :=
  waitLoop healthy url wt ri (wt + 1) 1

/-- The `WebServerConfig` fields consumed by `start_web_server`
(`src/web/server/web_server_config.rs`): ports and durations as `Nat`,
`https` reduced to its `enabled` flag, CORS omitted (it does not affect the
lifecycle). -/
structure WebServerConfig where
  bind : List String
  port : Option Nat
  listen : List String
  reuse_port : Bool
  https : Option Bool
  support_health_check : Bool
  start_wait_timeout : Nat
  start_retry_interval : Nat
  terminate_old_wait_timeout : Nat
  terminate_old_retry_interval : Nat

/-- Observable events of a `start_web_server` run. `termOld` is the
old-process termination step (`terminate_old_web_server` with a present
PID); `bindEv` is one bind attempt with its reuse mode. -/
inductive Ev where
  | termOld
  | bindEv (addr : String) (port : Nat) (reuse : Bool)
  | healthReady
  | healthTimeoutLogged
  | startedSent
  | sendStartedFailedLogged
  | termOldFailedLogged
deriving DecidableEq, Repr

/-- Outcome of a `start_web_server` run: either a startup failure with the
events that happened before it, or a server left serving, with the
foreground (pre-serve) events and the spawned readiness-task events. -/
inductive StartResult where
  | failed (e : WebServerError) (pre : List Ev)
  | serving (pre : List Ev) (bg : List Ev)
deriving DecidableEq, Repr

/-- Environment of outcomes supplied by the operating system and the old
process: the result of terminating the old process, per-address bind
results, the health endpoint response per poll, and whether the
started-notification send succeeds. -/
structure WorldEnv where
  terminateOld : Except String Unit
  bindResult : String → Nat → Bool → Except String Unit
  healthy : Nat → Bool
  sendStartedOk : Bool

/-- Model of `terminate_old_web_server` (lines 391-401): a no-op without an
old PID; otherwise the termination step runs, producing the `termOld` event
and wrapping a process error in `TerminateOldWebServer`. -/
def terminate_old_web_server (oldPid : Option Int)
    (outcome : Except String Unit) : List Ev × Except WebServerError Unit :=
  match oldPid with
  | none => ([], .ok ())
  | some _ =>
    match outcome with
    | .ok _ => ([.termOld], .ok ())
    | .error m => ([.termOld], .error (.TerminateOldWebServer m))

/-- The bind loop of `start_web_server` (lines 171-181): attempts each
resolved pair in order (reuse-port listeners when the effective flag is on),
stopping at the first failure with a `Socket` error. -/
def bindAll (env : WorldEnv) (reuse : Bool) :
    List (String × Nat) → List Ev × Except WebServerError Unit
  | [] => ([], .ok ())
  | (a, p) :: rest =>
    match env.bindResult a p reuse with
    | .error m => ([.bindEv a p reuse], .error (.Socket m))
    | .ok _ =>
      let r := bindAll env reuse rest
      (.bindEv a p reuse :: r.1, r.2)

/-- Loopback substitution used when building the health URL. -/
def healthBaseIp (ip : String) : String :=
  if ip = "0.0.0.0" then "127.0.0.1" else if ip = "::" then "[::1]" else ip

/-- Health URL built by the readiness task from the first resolved listen
pair (lines 185-200). -/
def healthUrl (httpsEnabled : Bool) (lb : List (String × Nat)) : String :=
  let proto := if httpsEnabled then "https" else "http"
  let hd := lb.headD ("", 0)
  proto ++ "://" ++ healthBaseIp hd.1 ++ ":" ++ toString hd.2 ++ "/health"

/-- The spawned readiness task (lines 184-231): wait for readiness (on
timeout, log and return), send the started notification (on failure, log and
return), and only in the random-port or reuse-port case terminate the old
process, logging but not unwinding on failure. -/
def bgTask (oldPid : Option Int) (shared : Bool)
    (waitRes : Except WebServerError Nat) (sendOk : Bool)
    (termRes : Except String Unit) : List Ev :=
  match waitRes with
  | .error _ => [.healthTimeoutLogged]
  | .ok _ =>
    if sendOk then
      if shared then
        match oldPid, termRes with
        | none, _ => [.healthReady, .startedSent]
        | some _, .ok _ => [.healthReady, .startedSent, .termOld]
        | some _, .error _ =>
          [.healthReady, .startedSent, .termOld, .termOldFailedLogged]
      else [.healthReady, .startedSent]
    else [.healthReady, .sendStartedFailedLogged]

/-- Model of `start_web_server` (lines 57-236): resolve the listen spec,
compute the random-port and effective reuse-port flags, terminate the old
process up front exactly in the exclusive-port case, bind every resolved
pair, then leave the server serving while the spawned readiness task
health-gates the handover. -/
def start_web_server (cfg : WebServerConfig) (portOfArgs : Option Nat)
    (oldPid : Option Int) (env : WorldEnv) : StartResult :=
  let port := (portOfArgs <|> cfg.port).getD 0
  match resolveListen cfg.bind cfg.listen port with
  | .error e => .failed e []
  | .ok res =>
    let irp := res.isRandomPort
    let ru := effectiveReusePort cfg.reuse_port irp
    let shc := irp || ru || cfg.support_health_check
    match
      (if !irp && !ru then terminate_old_web_server oldPid env.terminateOld
       else ([], Except.ok ())) with
    | (preT, .error e) => .failed e preT
    | (preT, .ok _) =>
      match bindAll env ru res.listenBinds with
      | (preB, .error e) => .failed e (preT ++ preB)
      | (preB, .ok _) =>
        let url := healthUrl (cfg.https.getD false) res.listenBinds
        let waitRes := wait_for_web_server_ready (fun k => shc && env.healthy k)
          url cfg.start_wait_timeout cfg.start_retry_interval
        .serving (preT ++ preB)
          (bgTask oldPid (irp || ru) waitRes env.sendStartedOk env.terminateOld)

/-- Events of the foreground phase of a run. -/
def preOf : StartResult → List Ev
  | .failed _ p => p
  | .serving p _ => p

/-- Events of the spawned readiness task of a run (empty when startup failed
before the task was spawned). -/
def bgOf : StartResult → List Ev
  | .failed _ _ => []
  | .serving _ b => b

/-- ASCII whitespace test used by the trim model. -/
def isWsChar (c : Char) : Bool :=
  c = ' ' ∨ c = '\t' ∨ c = '\n' ∨ c = '\r'

/-- Model of `str::trim` (ASCII whitespace, which covers PID file content):
drop whitespace from both ends. -/
def trimStr (s : String) : String :=
  String.mk (((s.toList.dropWhile isWsChar).reverse.dropWhile isWsChar).reverse)

/-- First line of a file body, as produced by `BufReader::lines().next()`:
`none` on an empty file (so the subsequent `unwrap` panics), otherwise the
content up to the first newline. -/
def firstLine? (c : String) : Option String :=
  if c = "" then none else some (String.mk (c.toList.takeWhile (fun ch => ch ≠ '\n')))

/-- Outcome of `read_pid` in `src/main_fn/pid_utils.rs`: the file may be
absent, hold a parseable PID, or make one of the `unwrap` calls panic
(empty file or unparsable first line). -/
inductive ReadPidOutcome where
  | absent
  | ok (p : Int)
  | panicked
deriving DecidableEq, Repr

/-- Model of `read_pid` (lines 50-69). The PID file is modelled as
`Option String`: `none` when the file does not exist, `some c` when it
exists with content `c`. A missing file yields `absent` (Rust `None`); a
present file has its first line trimmed and parsed as `pid_t`, and any
failure on that path is an `unwrap` panic, not a typed error. -/
def read_pid (file : Option String) : ReadPidOutcome :=
  match file with
  | none => .absent
  | some c =>
    match firstLine? c with
    | none => .panicked
    | some l =>
      match parseI32? (trimStr l) with
      | some p => .ok p
      | none => .panicked

/-- Outcome of the PID-file guard release action. -/
inductive DropOutcome where
  | noop
  | deleted
  | panicked
deriving DecidableEq, Repr

/-- Model of `delete_pid_file_if_my_process` (lines 99-107), the release
action run by `Drop for PidFileGuard`: re-read the file and delete it only
when the recorded PID equals the dropping process's own PID. The function
returns the outcome and the PID file state after the drop. -/
def delete_pid_file_if_my_process (file : Option String) (myPid : Int) :
    DropOutcome × Option String :=
  match read_pid file with
  | .absent => (.noop, file)
  | .panicked => (.panicked, file)
  | .ok p => if p = myPid then (.deleted, none) else (.noop, file)

/-- Process world visible to `kill(2)`: which PIDs exist, and which the
caller is permitted to signal. -/
structure ProcWorld where
  live : Int → Bool
  permitted : Int → Bool

/-- Outcome of a `kill` call. -/
inductive KillResult where
  | success
  | eperm
  | esrch
deriving DecidableEq, Repr

/-- POSIX `kill` outcome model: success when the target exists and the
caller may signal it, `EPERM` when it exists without permission, `ESRCH`
when no such process exists. -/
def killCall (w : ProcWorld) (pid : Int) : KillResult :=
  if w.live pid then
    (if w.permitted pid then .success else .eperm)
  else .esrch

/-- Model of `send_signal_to_check` (`src/main_fn/signal_utils.rs` lines
140-142): `kill(Pid::from_raw(pid), Signal::SIGCONT).is_ok()`. -/
def send_signal_to_check (w : ProcWorld) (pid : Int) : Bool :=
  killCall w pid == .success

/-- ASCII lowercase of one character, the fragment of Rust
`str::to_lowercase` exercised by the instruction tokens. -/
def charToLower (c : Char) : Char :=
  if 'A' ≤ c ∧ c ≤ 'Z' then Char.ofNat (c.toNat + 32) else c

/-- Model of `signal_str.to_lowercase()` on instruction tokens. -/
def toLowerStr (s : String) : String :=
  String.mk (s.toList.map charToLower)

/-- Result of `send_signal` in `src/main_fn/signal_utils.rs` (lines
100-111): the token is lowercased, then stop/s sends SIGTERM, kill/k sends
SIGKILL and deletes the PID file, and any other lowered token panics with
an invalid-signal message. An `expect` panic on the kill call itself is
reported separately. -/
inductive SendSignalResult where
  | sentTerm
  | sentKillAndDeleted
  | killPanicked
  | invalidPanic (lowered : String)
deriving DecidableEq, Repr

/-- Model of `send_signal` (lines 100-111). -/
def send_signal (w : ProcWorld) (signalStr : String) (pid : Int) :
    SendSignalResult :=
  let lowered := toLowerStr signalStr
  if lowered = "stop" ∨ lowered = "s" then
    match killCall w pid with
    | .success => .sentTerm
    | _ => .killPanicked
  else if lowered = "kill" ∨ lowered = "k" then
    match killCall w pid with
    | .success => .sentKillAndDeleted
    | _ => .killPanicked
  else .invalidPanic lowered

/-- The three branches of the if-chain in `parse_and_handle_signal_args`
(`src/main_fn/signal_utils.rs` lines 47-76): an exact-match restart branch,
an exact-match start branch, and a fall-through signal-sending branch. -/
inductive InstrBranch where
  | restartBranch
  | startBranch
  | sendBranch
deriving DecidableEq, Repr

/-- Branch selection of `parse_and_handle_signal_args`: the comparisons
with "restart" and "start" are exact (case-sensitive); everything else
falls through to the signal-sending branch. -/
def instrBranchOf (signal : String) : InstrBranch :=
  if signal = "restart" then .restartBranch
  else if signal = "start" then .startBranch
  else .sendBranch

/-- Outcome of `parse_and_handle_signal_args` in
`src/main_fn/signal_utils.rs`: the returned old PID, a panic (already
running, read/expect failure, or invalid signal), or a process exit from
the signal-sending branch. -/
inductive MainFnOutcome where
  | oldPid (old : Option Int)
  | alreadyRunningPanic
  | readPidPanic
  | invalidSignalPanic (lowered : String)
  | killPanic
  | exited (code : Nat)
deriving DecidableEq, Repr

/-- Model of `parse_and_handle_signal_args` (lines 47-76) over the PID file
state and the process world. -/
def parse_and_handle_signal_args (signal : String) (file : Option String)
    (w : ProcWorld) : MainFnOutcome :=
  if signal = "restart" then
    match read_pid file with
    | .panicked => .readPidPanic
    | .absent => .oldPid none
    | .ok p => if send_signal_to_check w p then .oldPid (some p) else .oldPid none
  else if signal = "start" then
    match read_pid file with
    | .panicked => .readPidPanic
    | .absent => .oldPid none
    | .ok p => if send_signal_to_check w p then .alreadyRunningPanic else .oldPid none
  else
    match read_pid file with
    | .panicked => .readPidPanic
    | .absent => .readPidPanic
    | .ok p =>
      match send_signal w signal p with
      | .sentTerm => .exited 0
      | .sentKillAndDeleted => .exited 0
      | .killPanicked => .killPanic
      | .invalidPanic l => .invalidSignalPanic l

namespace SignalManager

/-- The `SignalManagerError` enum
(`src/signal/signal_manager_error.rs`), with the wrapped `PidError` and
`ProcessError` payloads kept as message strings. The newest variant
(`robotech/src/signal/signal_manager.rs`) constructs `ProgramIsRunning`
with the conflicting PID. -/
inductive SignalManagerError where
  | Pid (msg : String)
  | Process (msg : String)
  | NotFoundPidFile (path : String)
  | ProgramIsRunning (pid : Int)
deriving DecidableEq, Repr

/-- Environment of the signal manager: outcomes of the PID-registry read,
the liveness check, the instruction-directed signal send, and the PID-file
delete, all performed by the process layer. -/
structure SigEnv where
  readPid : Except String (Option Int)
  checkProcess : Int → Except String Bool
  sendSignalOk : String → Int → Bool
  deletePidOk : Bool

/-- Side effects observable from `SignalManager::new` and its helper. -/
inductive SigEv where
  | signalSent (instr : String) (pid : Int)
  | pidFileDeleted
  | watchInstalled
  | guardTaskSpawned
deriving DecidableEq, Repr

/-- Result of `SignalManager::parse_and_handle_signal_args`: a returned
old-PID option, a typed error, or a process exit from the signal-sending
branch. -/
inductive ParseOutcome where
  | ok (old : Option Int)
  | err (e : SignalManagerError)
  | exited (code : Nat)
deriving DecidableEq, Repr

/-- Model of `SignalManager::parse_and_handle_signal_args`
(`robotech/src/signal/signal_manager.rs` lines 85-124): the PID file is
read once up front; `restart` returns a live owner as the old PID;
`start` fails with `ProgramIsRunning(pid)` when the owner is alive;
any other instruction requires a PID file and sends the instruction as a
signal, exiting the control process (deleting the PID file first on
`kill`). The second component is the trace of side effects performed. -/
def parse_and_handle_signal_args (instr : String) (path : String)
    (env : SigEnv) : ParseOutcome × List SigEv :=
  match env.readPid with
  | .error m => (.err (.Pid m), [])
  | .ok oldPid =>
    if instr = "restart" then
      match oldPid with
      | some p =>
        match env.checkProcess p with
        | .error m => (.err (.Process m), [])
        | .ok true => (.ok (some p), [])
        | .ok false => (.ok none, [])
      | none => (.ok none, [])
    else if instr = "start" then
      match oldPid with
      | some p =>
        match env.checkProcess p with
        | .error m => (.err (.Process m), [])
        | .ok true => (.err (.ProgramIsRunning p), [])
        | .ok false => (.ok none, [])
      | none => (.ok none, [])
    else
      match oldPid with
      | none => (.err (.NotFoundPidFile path), [])
      | some p =>
        if env.sendSignalOk instr p then
          if instr = "kill" then
            if env.deletePidOk then
              (.exited 0, [.signalSent instr p, .pidFileDeleted])
            else (.exited 1, [.signalSent instr p])
          else (.exited 0, [.signalSent instr p])
        else (.exited 1, [.signalSent instr p])

/-- Model of `SignalManager::new` (lines 30-55): resolve the instruction
first; on success install the OS signal watch and spawn the task that will
acquire the PID-file guard once the application reports started. On a
resolution error nothing else happens — no watch, no guard task, no
PID-file write. -/
def new (instr : String) (path : String) (env : SigEnv) :
    ParseOutcome × List SigEv :=
  match parse_and_handle_signal_args instr path env with
  | (.ok old, evs) => (.ok old, evs ++ [.watchInstalled, .guardTaskSpawned])
  | other => other

end SignalManager

/-! ### Helper lemmas -/

/-- Decidable equality for `Except`, used to evaluate the embedded
operations on concrete inputs. -/
def exceptDecEq {ε α : Type} [DecidableEq ε] [DecidableEq α] :
    DecidableEq (Except ε α)
  | .error a, .error b =>
    if h : a = b then .isTrue (by rw [h]) else .isFalse (by simp [h])
  | .error _, .ok _ => .isFalse (by simp)
  | .ok _, .error _ => .isFalse (by simp)
  | .ok a, .ok b =>
    if h : a = b then .isTrue (by rw [h]) else .isFalse (by simp [h])

instance {ε α : Type} [DecidableEq ε] [DecidableEq α] :
    DecidableEq (Except ε α) :=
  exceptDecEq

lemma listenEntry_ok_port {s : String} {bp : String × Nat}
    (h : listenEntry s = .ok bp) :
    listenPortOf? s = some bp.2 := by
  unfold listenEntry at h
  split at h <;> split at h <;>
    first
      | (simp only [Except.ok.injEq] at h; subst h; simp [listenPortOf?, *])
      | simp at h

lemma stepListen_ok_irp {acc : Resolved} {s : String} {r : Resolved}
    (h : stepListen acc s = .ok r) :
    r.isRandomPort = (acc.isRandomPort && ((listenPortOf? s).getD 1 == 0)) := by
  unfold stepListen at h
  rcases he : listenEntry s with e | bp <;> rw [he] at h
  · exact absurd h (by simp)
  · simp only [Except.ok.injEq] at h
    subst h
    rw [listenEntry_ok_port he]
    rfl

lemma resolveLoop_ok_irp : ∀ (ls : List String) (acc r : Resolved),
    resolveLoop acc ls = .ok r →
    r.isRandomPort =
      (acc.isRandomPort && ls.all (fun s => ((listenPortOf? s).getD 1 == 0)))
  | [], acc, r, h => by
    simp only [resolveLoop, Except.ok.injEq] at h
    subst h
    simp
  | s :: rest, acc, r, h => by
    unfold resolveLoop at h
    rcases hs : stepListen acc s with e | acc2 <;> rw [hs] at h
    · exact absurd h (by simp)
    · have hrec := resolveLoop_ok_irp rest acc2 r h
      rw [hrec, stepListen_ok_irp hs]
      simp [Bool.and_assoc]

/-! ### Claim C2 -/

/-- C2 (amended): in `start_web_server`, `is_random_port` is computed true
exactly when the effective top-level port is 0 AND every `listen` entry
parses to port 0; resolved pairs coming from `bind` entries (which always
take the top-level port) never re-clear the flag, and the effective
`reuse_port` is the configured flag AND NOT `is_random_port`. -/
theorem c2_random_port_flag (binds listens : List String) (port : Nat)
    (r : Resolved) (h : resolveListen binds listens port = .ok r) :
    r.isRandomPort =
      ((port == 0) && listens.all (fun s => ((listenPortOf? s).getD 1 == 0)))
    ∧ ∀ c irp, effectiveReusePort c irp = (c && !irp) := by
  constructor
  · have h2 : resolveLoop
        ⟨(if binds ≠ [] then binds.map (fun b => (b, port))
          else if listens = [] then [("0.0.0.0", port)] else []),
          port == 0⟩ listens = .ok r := h
    simpa using resolveLoop_ok_irp listens _ r h2
  · intro c irp
    rfl

/-- C2 witness: evaluates the amended statement on the configuration
`bind = ["1.2.3.4"]`, `listen = ["127.0.0.1:8080"]`, top-level port 0. -/
theorem c2_random_port_flag_witness :
    Resolved.isRandomPort ⟨[("1.2.3.4", 0), ("127.0.0.1", 8080)], false⟩ =
      ((0 == 0) &&
        (["127.0.0.1:8080"] : List String).all
          (fun s => ((listenPortOf? s).getD 1 == 0))) :=
  (c2_random_port_flag ["1.2.3.4"] ["127.0.0.1:8080"] 0
    ⟨[("1.2.3.4", 0), ("127.0.0.1", 8080)], false⟩ (by decide)).1

/-- C2 counterexample: with `bind = ["1.2.3.4"]`, `port = None`
(effective 0) and `listen = ["127.0.0.1:8080"]` the resolved set contains a
port-0 pair, yet `is_random_port` is false and a configured `reuse_port`
stays enabled — refuting the claim that the flag is true exactly when some
resolved port is 0 and that every such configuration disables reuse. -/
theorem c2_counterexample :
    resolveListen ["1.2.3.4"] ["127.0.0.1:8080"] 0 =
      .ok ⟨[("1.2.3.4", 0), ("127.0.0.1", 8080)], false⟩
    ∧ (([("1.2.3.4", 0), ("127.0.0.1", 8080)] :
        List (String × Nat)).map Prod.snd).contains 0 = true
    ∧ effectiveReusePort true false = true := by
  decide

/-! ### Claim C8 -/

/-- C8: listen-spec resolution — empty `bind`/`listen` with no port gives
exactly one wildcard bind on port 0; an `ip:port` entry resolves to that
pair; a bracketed IPv6 entry is stripped; an unparsable port fails with the
typed `ParsePort` error, and a resolution error aborts `start_web_server`
before any event, in particular before any bind attempt. -/
theorem c8_listen_spec_resolution :
    resolveListen [] [] 0 = .ok ⟨[("0.0.0.0", 0)], true⟩
    ∧ resolveListen [] ["127.0.0.1:8080"] 0 =
        .ok ⟨[("127.0.0.1", 8080)], false⟩
    ∧ resolveListen [] ["[::1]:9090"] 0 = .ok ⟨[("::1", 9090)], false⟩
    ∧ (∀ s pre post p, splitAtLastColon s = some (pre, post) →
        parseU16? post = none →
        resolveListen [] [s] p = .error (.ParsePort s))
    ∧ (∀ (cfg : WebServerConfig) (pa : Option Nat) (op : Option Int)
        (env : WorldEnv) (e : WebServerError),
        resolveListen cfg.bind cfg.listen ((pa <|> cfg.port).getD 0) =
          .error e →
        start_web_server cfg pa op env = .failed e []) := by
  refine ⟨by decide, by decide, by decide, ?_, ?_⟩
  · intro s pre post p hsp hp
    simp [resolveListen, resolveLoop, stepListen, listenEntry, hsp, hp]
  · intro cfg pa op env e h
    simp only [start_web_server, h]

/-- C8 witness: the unparsable-port conjunct evaluated at
`listen = ["127.0.0.1:abc"]`. -/
theorem c8_listen_spec_resolution_witness :
    resolveListen [] ["127.0.0.1:abc"] 0 =
      .error (.ParsePort "127.0.0.1:abc") :=
  c8_listen_spec_resolution.2.2.2.1 "127.0.0.1:abc" "127.0.0.1" "abc" 0
    (by decide) (by decide)

/-! ### Claim C4 -/

/-- C4: the PID-file guard release action deletes the file exactly when it
still exists and records the dropping process's own PID; dropping when the
file is gone or records a different PID deletes nothing and does not error,
and a second drop after any non-panicking drop is a no-op — the release is
idempotent under double-drop. -/
theorem c4_guard_drop_owner_check (file : Option String) (me : Int) :
    ((delete_pid_file_if_my_process file me).1 = DropOutcome.deleted ↔
      read_pid file = .ok me)
    ∧ (file = none → delete_pid_file_if_my_process file me = (.noop, none))
    ∧ (∀ p, read_pid file = .ok p → p ≠ me →
        delete_pid_file_if_my_process file me = (.noop, file))
    ∧ ((delete_pid_file_if_my_process file me).1 ≠ DropOutcome.panicked →
        delete_pid_file_if_my_process
          (delete_pid_file_if_my_process file me).2 me =
          (.noop, (delete_pid_file_if_my_process file me).2)) := by
  rcases hr : read_pid file with _ | p | _
  · have hd : delete_pid_file_if_my_process file me = (.noop, file) := by
      unfold delete_pid_file_if_my_process
      rw [hr]
    refine ⟨by rw [hd]; simp, ?_, ?_, ?_⟩
    · intro hf
      rw [hd, hf]
    · intro q hq hqm
      exact absurd hq (by simp)
    · intro h2
      rw [hd]
      exact hd
  · by_cases hpm : p = me
    · subst hpm
      have hd : delete_pid_file_if_my_process file p = (.deleted, none) := by
        unfold delete_pid_file_if_my_process
        rw [hr]
        simp
      refine ⟨by rw [hd]; simp, ?_, ?_, ?_⟩
      · intro hf
        rw [hf] at hr
        exact absurd hr (by simp [read_pid])
      · intro q hq hqm
        simp only [ReadPidOutcome.ok.injEq] at hq
        exact absurd hq.symm hqm
      · intro h2
        rw [hd]
        rfl
    · have hd : delete_pid_file_if_my_process file me = (.noop, file) := by
        unfold delete_pid_file_if_my_process
        rw [hr]
        simp [hpm]
      refine ⟨by rw [hd]; simp [hpm], ?_, ?_, ?_⟩
      · intro hf
        rw [hf] at hr
        exact absurd hr (by simp [read_pid])
      · intro q hq hqm
        exact hd
      · intro h2
        rw [hd]
        exact hd
  · have hd : delete_pid_file_if_my_process file me = (.panicked, file) := by
      unfold delete_pid_file_if_my_process
      rw [hr]
    refine ⟨by rw [hd]; simp, ?_, ?_, ?_⟩
    · intro hf
      rw [hf] at hr
      exact absurd hr (by simp [read_pid])
    · intro q hq hqm
      exact absurd hq (by simp)
    · intro h2
      rw [hd] at h2
      exact absurd rfl h2

/-- C4 witness: second drop after the file is gone is a no-op without
error, and a matching-PID drop deletes. -/
theorem c4_guard_drop_owner_check_witness :
    delete_pid_file_if_my_process none 7 = (.noop, none)
    ∧ (delete_pid_file_if_my_process (some "7") 7).1 = DropOutcome.deleted :=
  ⟨(c4_guard_drop_owner_check none 7).2.1 rfl,
   (c4_guard_drop_owner_check (some "7") 7).1.mpr (by decide)⟩

/-! ### Claim C6 -/

/-- C6 (amended): the liveness probe `send_signal_to_check` is
`kill(pid, SIGCONT).is_ok()`: it returns true exactly when the kill call
succeeds, i.e. when the target exists and the caller is permitted to signal
it. Both permission-denied and no-such-process yield false, so an existing
PID the caller cannot signal is reported not alive. -/
theorem c6_liveness_probe (w : ProcWorld) (pid : Int) :
    send_signal_to_check w pid = (w.live pid && w.permitted pid) := by
  unfold send_signal_to_check killCall
  cases h1 : w.live pid <;> cases h2 : w.permitted pid <;> simp [h1, h2]

/-- C6 counterexample: a world where PID 5 exists but the caller lacks
permission. The kill call fails with `EPERM`, and the probe returns false —
refuting the claim that a permission-denied failure is reported as alive. -/
theorem c6_counterexample :
    ProcWorld.live ⟨fun p => p == 5, fun _ => false⟩ 5 = true
    ∧ killCall ⟨fun p => p == 5, fun _ => false⟩ 5 = .eperm
    ∧ send_signal_to_check ⟨fun p => p == 5, fun _ => false⟩ 5 = false := by
  refine ⟨by decide, by decide, by decide⟩

/-! ### Claim C7 -/

/-- C7 (amended): `read_pid` returns `None` when the PID file is absent;
when the file is present but its first line does not parse as an integer
(or the file is empty) the function panics via `unwrap` — an abort, not a
typed error. -/
theorem c7_read_pid_malformed (file : Option String) :
    (file = none → read_pid file = .absent)
    ∧ (∀ c l, file = some c → firstLine? c = some l →
        parseI32? (trimStr l) = none → read_pid file = .panicked)
    ∧ (file = some "" → read_pid file = .panicked) := by
  refine ⟨?_, ?_, ?_⟩
  · rintro rfl
    rfl
  · rintro c l rfl h1 h2
    simp [read_pid, h1, h2]
  · rintro rfl
    rfl

/-- C7 counterexample: a present PID file with content "abc" makes
`read_pid` panic (the `unwrap` on `parse::<pid_t>`), instead of failing
with a typed `MalformedPidFile` error as the claim states. -/
theorem c7_counterexample :
    read_pid (some "abc") = .panicked
    ∧ ∀ p : Int, read_pid (some "abc") ≠ .ok p := by
  have h : read_pid (some "abc") = .panicked := by decide
  exact ⟨h, fun p hp => by rw [h] at hp; exact ReadPidOutcome.noConfusion hp⟩

/-- C7 witness: the amended statement evaluated on file content "12x". -/
theorem c7_read_pid_malformed_witness :
    read_pid (some "12x") = .panicked :=
  (c7_read_pid_malformed (some "12x")).2.1 "12x" "12x" rfl (by decide)
    (by decide)

/-! ### Claim C9 -/

lemma waitLoop_succ (healthy : Nat → Bool) (url : String) (wt ri n k : Nat) :
    waitLoop healthy url wt ri (n + 1) k =
      if wt ≤ k * ri then .error (.StartWebServerTimeout url)
      else if healthy k then .ok k
      else waitLoop healthy url wt ri n (k + 1) := rfl

lemma waitLoop_ok_lower (healthy : Nat → Bool) (url : String) (wt ri : Nat) :
    ∀ fuel k j, waitLoop healthy url wt ri fuel k = .ok j → k ≤ j := by
  intro fuel
  induction fuel with
  | zero =>
    intro k j h
    exact absurd h (by simp [waitLoop])
  | succ n ih =>
    intro k j h
    rw [waitLoop_succ] at h
    split at h
    · exact absurd h (by simp)
    · split at h
      · simp only [Except.ok.injEq] at h
        omega
      · exact Nat.le_of_succ_le (ih (k + 1) j h)

/-- C9: the readiness poll sleeps one `start_retry_interval` before its
first health request, so a successful wait always takes at least one retry
interval (the successful poll index is at least 1); and whenever
`start_retry_interval ≥ start_wait_timeout` the wait times out for every
health behaviour, even a server healthy from the first poll. -/
theorem c9_first_poll_after_one_interval (healthy : Nat → Bool)
    (url : String) (wt ri : Nat) :
    (∀ k, wait_for_web_server_ready healthy url wt ri = .ok k →
      1 ≤ k ∧ ri ≤ k * ri)
    ∧ (wt ≤ ri →
        wait_for_web_server_ready healthy url wt ri =
          .error (.StartWebServerTimeout url)) := by
  constructor
  · intro k h
    have h1 := waitLoop_ok_lower healthy url wt ri (wt + 1) 1 k h
    refine ⟨h1, ?_⟩
    calc ri = 1 * ri := (one_mul ri).symm
    _ ≤ k * ri := Nat.mul_le_mul_right ri h1
  · intro hle
    unfold wait_for_web_server_ready
    rw [waitLoop_succ, if_pos (by simpa using hle)]

/-- C9 witness: an immediately healthy server with
`start_retry_interval = start_wait_timeout = 3` still times out. -/
theorem c9_first_poll_after_one_interval_witness :
    wait_for_web_server_ready (fun _ => true) "http://127.0.0.1:80/health"
      3 3 = .error (.StartWebServerTimeout "http://127.0.0.1:80/health") :=
  (c9_first_poll_after_one_interval (fun _ => true)
    "http://127.0.0.1:80/health" 3 3).2 (by decide)

/-! ### Claim C10 -/

/-- C10: instruction-token matching is case-sensitive for `start`/`restart`
but case-insensitive inside `send_signal`: any casing whose lowercase is
"stop" acts like "stop" (so "STOP" behaves like "stop" for every PID-file
state and process world), while "Start" does not select the start branch —
it falls through to the signal-sending branch and is rejected there as an
invalid signal. -/
theorem c10_token_case_handling :
    (∀ (w : ProcWorld) (s : String) (p : Int), toLowerStr s = "stop" →
      send_signal w s p = send_signal w "stop" p)
    ∧ (∀ (file : Option String) (w : ProcWorld),
        parse_and_handle_signal_args "STOP" file w =
          parse_and_handle_signal_args "stop" file w)
    ∧ instrBranchOf "Start" = .sendBranch
    ∧ instrBranchOf "start" = .startBranch
    ∧ (∀ (w : ProcWorld) (p : Int),
        send_signal w "Start" p = .invalidPanic "start")
    ∧ (∀ (file : Option String) (w : ProcWorld) (p : Int),
        read_pid file = .ok p →
        parse_and_handle_signal_args "Start" file w =
          .invalidSignalPanic "start") := by
  have hinv : ∀ (w : ProcWorld) (p : Int),
      send_signal w "Start" p = .invalidPanic "start" := by
    intro w p
    simp only [send_signal]
    rw [if_neg (by decide), if_neg (by decide)]
    decide
  refine ⟨?_, ?_, by decide, by decide, hinv, ?_⟩
  · intro w s p h
    unfold send_signal
    rw [h, show toLowerStr "stop" = "stop" from by decide]
  · intro file w
    have hss : ∀ p2 : Int, send_signal w "STOP" p2 = send_signal w "stop" p2 := by
      intro p2
      unfold send_signal
      rfl
    unfold parse_and_handle_signal_args
    rw [if_neg (show ("STOP" : String) ≠ "restart" from by decide),
        if_neg (show ("STOP" : String) ≠ "start" from by decide),
        if_neg (show ("stop" : String) ≠ "restart" from by decide),
        if_neg (show ("stop" : String) ≠ "start" from by decide)]
    rcases read_pid file with _ | q | _
    · rfl
    · simp only [hss]
    · rfl
  · intro file w p h
    unfold parse_and_handle_signal_args
    rw [if_neg (show ("Start" : String) ≠ "restart" from by decide),
        if_neg (show ("Start" : String) ≠ "start" from by decide), h]
    simp [hinv]

/-- C10 witness: the case-insensitive conjunct applied to "StOp" and the
invalid-signal conjunct applied to a PID file recording PID 5. -/
theorem c10_token_case_handling_witness :
    send_signal ⟨fun _ => true, fun _ => true⟩ "StOp" 3 =
      send_signal ⟨fun _ => true, fun _ => true⟩ "stop" 3
    ∧ parse_and_handle_signal_args "Start" (some "5")
        ⟨fun _ => true, fun _ => true⟩ = .invalidSignalPanic "start" :=
  ⟨c10_token_case_handling.1 ⟨fun _ => true, fun _ => true⟩ "StOp" 3
    (by decide),
   c10_token_case_handling.2.2.2.2.2 (some "5")
    ⟨fun _ => true, fun _ => true⟩ 5 (by decide)⟩

/-! ### Claim C5 -/

/-- C5: for the `start` instruction with a PID file naming a PID whose
process is alive, `SignalManager::new` fails with `ProgramIsRunning`
carrying that PID and performs no side effect: no signal is sent, no
PID file is deleted or written, no signal watch is installed and no
guard-acquisition task is spawned, so the process cannot proceed to bind or
start a server. -/
theorem c5_start_conflict_no_side_effects (env : SignalManager.SigEnv)
    (p : Int) (path : String)
    (h1 : env.readPid = .ok (some p))
    (h2 : env.checkProcess p = .ok true) :
    SignalManager.new "start" path env =
      (.err (.ProgramIsRunning p), []) := by
  unfold SignalManager.new SignalManager.parse_and_handle_signal_args
  rw [h1]
  simp only [if_neg (show ("start" : String) ≠ "restart" from by decide),
    if_pos (show ("start" : String) = "start" from rfl)]
  rw [h2]
  simp

/-- C5 witness: a concrete environment whose PID registry records PID 42
with a live owner. -/
theorem c5_start_conflict_no_side_effects_witness :
    SignalManager.new "start" "app.pid"
      ⟨.ok (some 42), fun _ => .ok true, fun _ _ => true, true⟩ =
      (.err (.ProgramIsRunning 42), []) :=
  c5_start_conflict_no_side_effects
    ⟨.ok (some 42), fun _ => .ok true, fun _ _ => true, true⟩ 42 "app.pid"
    rfl rfl

/-! ### Claims C1 and C3: run characterization -/

lemma start_web_server_ok (cfg : WebServerConfig) (pa : Option Nat)
    (op : Option Int) (env : WorldEnv) (res : Resolved)
    (hres : resolveListen cfg.bind cfg.listen ((pa <|> cfg.port).getD 0) =
      .ok res) :
    start_web_server cfg pa op env =
      match
        (if !res.isRandomPort &&
            !effectiveReusePort cfg.reuse_port res.isRandomPort then
          terminate_old_web_server op env.terminateOld
        else ([], Except.ok ())) with
      | (preT, .error e) => .failed e preT
      | (preT, .ok _) =>
        match bindAll env (effectiveReusePort cfg.reuse_port res.isRandomPort)
            res.listenBinds with
        | (preB, .error e) => .failed e (preT ++ preB)
        | (preB, .ok _) =>
          .serving (preT ++ preB)
            (bgTask op
              (res.isRandomPort ||
                effectiveReusePort cfg.reuse_port res.isRandomPort)
              (wait_for_web_server_ready
                (fun k =>
                  (res.isRandomPort ||
                    effectiveReusePort cfg.reuse_port res.isRandomPort ||
                    cfg.support_health_check) && env.healthy k)
                (healthUrl (cfg.https.getD false) res.listenBinds)
                cfg.start_wait_timeout cfg.start_retry_interval)
              env.sendStartedOk env.terminateOld) := by
  simp only [start_web_server, hres]

lemma bindAll_no_termOld (env : WorldEnv) (reuse : Bool) :
    ∀ l, Ev.termOld ∉ (bindAll env reuse l).1 := by
  intro l
  induction l with
  | nil => simp [bindAll]
  | cons hd tl ih =>
    rcases hd with ⟨a, p⟩
    unfold bindAll
    rcases env.bindResult a p reuse with m | u
    · simp
    · simpa using ih

lemma bgTask_not_shared (old : Option Int) (w : Except WebServerError Nat)
    (sOk : Bool) (t : Except String Unit) :
    Ev.termOld ∉ bgTask old false w sOk t := by
  unfold bgTask
  rcases w with e | k
  · simp
  · cases sOk <;> simp

lemma bgTask_mem_termOld (old : Option Int) (sh : Bool)
    (w : Except WebServerError Nat) (sOk : Bool) (t : Except String Unit)
    (h : Ev.termOld ∈ bgTask old sh w sOk t) :
    bgTask old sh w sOk t = [.healthReady, .startedSent, .termOld]
    ∨ bgTask old sh w sOk t =
        [.healthReady, .startedSent, .termOld, .termOldFailedLogged] := by
  unfold bgTask at h ⊢
  rcases w with e | k
  · simp at h
  · cases sOk
    · simp at h
    · cases sh
      · simp at h
      · rcases old with _ | p
        · simp at h
        · rcases t with m | u
          · right
            rfl
          · left
            rfl

/-- C1 (amended): per run of `start_web_server` with an old-process PID, at
most one of the two termination steps can execute, selected by the
exclusive-vs-shared port decision: in the exclusive-port case the old
process is terminated first, before any bind attempt; in the random-port or
reuse-port case the foreground phase never terminates it, and the readiness
task terminates it only after the health check succeeded and the started
notification was delivered. Never both — but when the shared-port readiness
check fails, neither step executes (refuting the unconditional
"never neither"). -/
theorem c1_termination_step_selection (cfg : WebServerConfig)
    (pa : Option Nat) (p : Int) (env : WorldEnv) (res : Resolved)
    (hres : resolveListen cfg.bind cfg.listen ((pa <|> cfg.port).getD 0) =
      .ok res)
    (r : StartResult) (hr : r = start_web_server cfg pa (some p) env) :
    ¬(Ev.termOld ∈ preOf r ∧ Ev.termOld ∈ bgOf r)
    ∧ ((!res.isRandomPort &&
        !effectiveReusePort cfg.reuse_port res.isRandomPort) = true →
        ∃ rest, preOf r = Ev.termOld :: rest ∧ Ev.termOld ∉ rest)
    ∧ ((res.isRandomPort ||
        effectiveReusePort cfg.reuse_port res.isRandomPort) = true →
        Ev.termOld ∉ preOf r
        ∧ (Ev.termOld ∈ bgOf r →
            bgOf r = [.healthReady, .startedSent, .termOld]
            ∨ bgOf r =
                [.healthReady, .startedSent, .termOld,
                  .termOldFailedLogged])) := by
  subst hr
  rw [start_web_server_ok cfg pa (some p) env res hres]
  by_cases hex :
      (!res.isRandomPort &&
        !effectiveReusePort cfg.reuse_port res.isRandomPort) = true
  · rw [if_pos hex]
    have hshared :
        (res.isRandomPort ||
          effectiveReusePort cfg.reuse_port res.isRandomPort) = false := by
      cases hi : res.isRandomPort <;>
        cases hu : effectiveReusePort cfg.reuse_port res.isRandomPort <;>
        simp_all
    rcases ht : env.terminateOld with m | u
    · simp only [terminate_old_web_server]
      refine ⟨by simp [preOf, bgOf], ?_, ?_⟩
      · intro hx
        exact ⟨[], by simp [preOf], by simp⟩
      · intro hsh
        rw [hshared] at hsh
        exact absurd hsh (by simp)
    · simp only [terminate_old_web_server]
      rcases hb : bindAll env
          (effectiveReusePort cfg.reuse_port res.isRandomPort)
          res.listenBinds with ⟨preB, rB⟩
      have hnb : Ev.termOld ∉ preB := by
        have h0 := bindAll_no_termOld env
          (effectiveReusePort cfg.reuse_port res.isRandomPort)
          res.listenBinds
        rw [hb] at h0
        exact h0
      rcases rB with e | u2
      · refine ⟨by simp [preOf, bgOf], ?_, ?_⟩
        · intro hx
          exact ⟨preB, by simp [preOf], hnb⟩
        · intro hsh
          rw [hshared] at hsh
          exact absurd hsh (by simp)
      · refine ⟨?_, ?_, ?_⟩
        · intro hboth
          have hbg := hboth.2
          simp only [bgOf] at hbg
          rw [hshared] at hbg
          exact absurd hbg (bgTask_not_shared _ _ _ _)
        · intro hx
          exact ⟨preB, by simp [preOf], hnb⟩
        · intro hsh
          rw [hshared] at hsh
          exact absurd hsh (by simp)
  · rw [if_neg hex]
    have hshared :
        (res.isRandomPort ||
          effectiveReusePort cfg.reuse_port res.isRandomPort) = true := by
      cases hi : res.isRandomPort <;>
        cases hu : effectiveReusePort cfg.reuse_port res.isRandomPort <;>
        simp_all
    rcases hb : bindAll env
        (effectiveReusePort cfg.reuse_port res.isRandomPort)
        res.listenBinds with ⟨preB, rB⟩
    have hnb : Ev.termOld ∉ preB := by
      have h0 := bindAll_no_termOld env
        (effectiveReusePort cfg.reuse_port res.isRandomPort)
        res.listenBinds
      rw [hb] at h0
      exact h0
    rcases rB with e | u2
    · refine ⟨?_, ?_, ?_⟩
      · intro hboth
        have hpre := hboth.1
        simp only [preOf, List.nil_append] at hpre
        exact absurd hpre hnb
      · intro hx
        exact absurd hx hex
      · intro hsh
        refine ⟨?_, ?_⟩
        · simp only [preOf, List.nil_append]
          exact hnb
        · intro hbg
          simp only [bgOf] at hbg
          exact absurd hbg (by simp)
    · refine ⟨?_, ?_, ?_⟩
      · intro hboth
        have hpre := hboth.1
        simp only [preOf, List.nil_append] at hpre
        exact absurd hpre hnb
      · intro hx
        exact absurd hx hex
      · intro hsh
        refine ⟨?_, ?_⟩
        · simp only [preOf, List.nil_append]
          exact hnb
        · intro hbg
          simp only [bgOf] at hbg ⊢
          exact bgTask_mem_termOld _ _ _ _ _ hbg

/-- C1 witness: an exclusive-port restart (port 8080, reuse off) with old
PID 4: the old-process termination step is the first foreground event,
before the bind. -/
theorem c1_termination_step_selection_witness :
    ∃ rest,
      preOf (start_web_server
        ⟨[], none, ["127.0.0.1:8080"], false, none, true, 10, 1, 1, 1⟩
        none (some 4)
        ⟨.ok (), fun _ _ _ => .ok (), fun _ => true, true⟩) =
        Ev.termOld :: rest
      ∧ Ev.termOld ∉ rest :=
  (c1_termination_step_selection
    ⟨[], none, ["127.0.0.1:8080"], false, none, true, 10, 1, 1, 1⟩
    none 4
    ⟨.ok (), fun _ _ _ => .ok (), fun _ => true, true⟩
    ⟨[("127.0.0.1", 8080)], false⟩ (by decide) _ rfl).2.1 (by decide)

/-- C1 counterexample: a reuse-port restart with old PID 9 whose readiness
check times out (`start_retry_interval = 10 ≥ start_wait_timeout = 5`): the
run keeps serving, and NEITHER termination step executes — the old process
is never signaled, refuting "exactly one of the two steps executes, never
neither". -/
theorem c1_counterexample :
    start_web_server
      ⟨[], none, ["127.0.0.1:8080"], true, none, false, 5, 10, 1, 1⟩
      none (some 9)
      ⟨.ok (), fun _ _ _ => .ok (), fun _ => true, true⟩ =
      .serving [.bindEv "127.0.0.1" 8080 true] [.healthTimeoutLogged]
    ∧ Ev.termOld ∉
        preOf (StartResult.serving [Ev.bindEv "127.0.0.1" 8080 true]
          [Ev.healthTimeoutLogged])
    ∧ Ev.termOld ∉
        bgOf (StartResult.serving [Ev.bindEv "127.0.0.1" 8080 true]
          [Ev.healthTimeoutLogged]) := by
  refine ⟨by decide, by decide, by decide⟩

/-- C3 (amended): when the readiness wait computes a timeout error, a run
of `start_web_server` that reached the serving phase has a readiness-task
trace consisting solely of the logged timeout: the started notification is
never sent and the old process is never terminated, but the run result
remains `serving` — `wait_for_web_server_ready` fails with
`StartWebServerTimeout`, while `start_web_server` itself does not terminate
with that error and the new server keeps serving. -/
theorem c3_readiness_timeout_not_fatal (cfg : WebServerConfig)
    (pa : Option Nat) (op : Option Int) (env : WorldEnv) (res : Resolved)
    (e : WebServerError)
    (hres : resolveListen cfg.bind cfg.listen ((pa <|> cfg.port).getD 0) =
      .ok res)
    (hwait : wait_for_web_server_ready
        (fun k =>
          (res.isRandomPort ||
            effectiveReusePort cfg.reuse_port res.isRandomPort ||
            cfg.support_health_check) && env.healthy k)
        (healthUrl (cfg.https.getD false) res.listenBinds)
        cfg.start_wait_timeout cfg.start_retry_interval = .error e) :
    ∀ pre bg, start_web_server cfg pa op env = .serving pre bg →
      bg = [Ev.healthTimeoutLogged] := by
  intro pre bg h
  rw [start_web_server_ok cfg pa op env res hres] at h
  split at h
  · exact absurd h (by simp)
  · split at h
    · exact absurd h (by simp)
    · simp only [StartResult.serving.injEq] at h
      rw [← h.2]
      rw [hwait]
      rfl

/-- C3 witness: a reuse-port run against a server that is never healthy
(timeout 10, interval 1) reaches serving with only the logged timeout in
the readiness-task trace. -/
theorem c3_readiness_timeout_not_fatal_witness :
    bgOf (start_web_server
      ⟨[], none, ["127.0.0.1:9090"], true, none, false, 10, 1, 1, 1⟩
      none (some 4)
      ⟨.ok (), fun _ _ _ => .ok (), fun _ => false, true⟩) =
      [Ev.healthTimeoutLogged] := by
  have h := c3_readiness_timeout_not_fatal
    ⟨[], none, ["127.0.0.1:9090"], true, none, false, 10, 1, 1, 1⟩
    none (some 4)
    ⟨.ok (), fun _ _ _ => .ok (), fun _ => false, true⟩
    ⟨[("127.0.0.1", 9090)], false⟩
    (.StartWebServerTimeout "http://127.0.0.1:9090/health")
    (by decide) (by decide)
    [Ev.bindEv "127.0.0.1" 9090 true] [Ev.healthTimeoutLogged] (by decide)
  rw [show start_web_server
      ⟨[], none, ["127.0.0.1:9090"], true, none, false, 10, 1, 1, 1⟩
      none (some 4)
      ⟨.ok (), fun _ _ _ => .ok (), fun _ => false, true⟩ =
      .serving [Ev.bindEv "127.0.0.1" 9090 true] [Ev.healthTimeoutLogged]
    from by decide]
  rw [h]
  rfl

/-- C3 counterexample: the same never-healthy reuse-port run: the result of
`start_web_server` is `serving` — not a `failed (StartWebServerTimeout _)`
— and the readiness task neither sent the started notification nor
terminated old PID 4; the health-check timeout was merely logged. -/
theorem c3_counterexample :
    start_web_server
      ⟨[], none, ["127.0.0.1:9090"], true, none, false, 10, 1, 1, 1⟩
      none (some 4)
      ⟨.ok (), fun _ _ _ => .ok (), fun _ => false, true⟩ =
      .serving [.bindEv "127.0.0.1" 9090 true] [.healthTimeoutLogged]
    ∧ Ev.startedSent ∉
        bgOf (StartResult.serving [Ev.bindEv "127.0.0.1" 9090 true]
          [Ev.healthTimeoutLogged])
    ∧ Ev.termOld ∉
        bgOf (StartResult.serving [Ev.bindEv "127.0.0.1" 9090 true]
          [Ev.healthTimeoutLogged]) := by
  refine ⟨by decide, by decide, by decide⟩

end Robotech

